import Mathlib

/-!
Verification of the openldap batch user-management script.

The development shallowly embeds `src/openldap.py`. The external
python-ldap client (connect, bind, search, add, modify, delete, rename,
unbind) is modelled as operations on an explicit directory state together
with a transport-failure schedule: each directory call consumes one flag
from the schedule (an empty schedule means every remaining call succeeds
at the transport level). Every call is also recorded in an operation
trace, so that theorems can speak about which directory operations a code
path performed. Python exceptions are modelled with `Except`: `ldapError`
stands for `ldap.LDAPError`, and `nameError` stands for the
`NameError`/`UnboundLocalError` that the source raises when it reads the
variable `ldap_result` after the assignment to it was skipped by a caught
search exception.
-/

namespace OpenLdap

/-- The configuration constants from `openldap_settings.py` that the
processing logic reads (server address and bind credentials are consumed
only by the modelled connect call and carry no information used by the
claims). -/
structure Config where
  MAILDOMAIN : String
  STUPATTERN : String
  GSTPATTERN : String
  STUDENTOU : String
  GUESTOU : String
  EMPOU : String
deriving Repr, DecidableEq

/-- A directory entry. `uid` is the value of the uid attribute (also the
RDN value), `parent` is the remainder of the DN after the `uid=<uid>`
RDN, `objectClass` the object classes, and `attrs` the remaining
attributes as an association list. -/
structure Entry where
  uid : String
  parent : String
  objectClass : List String
  attrs : List (String × String)
deriving Repr, DecidableEq

/-- The DN of an entry. -/
def Entry.dn (e : Entry) : String := "uid=" ++ e.uid ++ e.parent

/-- The two search filters the script uses: `uid=<u>` in `findUser` and
`(&(uid=<u>)(objectClass=posixAccount))` in `containsPosixAccount`. -/
inductive Filter where
  | uidF (u : String)
  | uidPosixF (u : String)
deriving Repr, DecidableEq

/-- Whether an entry matches a filter. -/
def matchesFilter (filt : Filter) (e : Entry) : Bool :=
  match filt with
  | .uidF u => e.uid == u
  | .uidPosixF u => e.uid == u && e.objectClass.contains "posixAccount"

/-- Directory operations, recorded in the execution trace in call order.
`modifyOp` carries the modification list so that theorems can state which
attribute set an update applied. -/
inductive Op where
  | connectOp
  | searchOp (filt : Filter)
  | addOp (dn : String)
  | modifyOp (dn : String) (mods : List (String × String))
  | delOp (dn : String)
  | renameOp (dn : String) (newrdn : String)
  | unbindOp
deriving Repr, DecidableEq

/-- The Python exceptions relevant to the script: `ldapError` models
`ldap.LDAPError`; `nameError` models the `NameError` raised on reading a
local variable whose assignment was skipped. -/
inductive PyErr where
  | ldapError
  | nameError
deriving Repr, DecidableEq

/-- The world threaded through the execution: the directory contents, the
transport-failure schedule (one flag per directory call, `true` meaning
the transport works; an exhausted schedule means success), and the trace
of directory operations performed so far. -/
structure W where
  dir : List Entry
  sched : List Bool
  trace : List Op
deriving Repr, DecidableEq

/-- Consume the next transport flag. -/
def popSched (w : W) : Bool × W :=
  (w.sched.headD true, { w with sched := w.sched.tail })

/-- Model of `l.search_s(baseDN, SCOPE_SUBTREE, filter, attrs)`: on
transport success it returns the entries matching the filter. -/
def search_s (w : W) (filt : Filter) : Except PyErr (List Entry) × W :=
  let (ok, w) := popSched w
  let w := { w with trace := w.trace ++ [Op.searchOp filt] }
  if ok then (.ok (w.dir.filter (fun e => matchesFilter filt e)), w)
  else (.error PyErr.ldapError, w)

/-- Model of `l.add_s(dn, ldif)`: fails on transport failure or when an
entry with the same DN already exists, otherwise appends the entry. -/
def add_s (w : W) (e : Entry) : Except PyErr Unit × W :=
  let (ok, w) := popSched w
  let w := { w with trace := w.trace ++ [Op.addOp e.dn] }
  if ok then
    if w.dir.any (fun x => x.dn == e.dn) then (.error PyErr.ldapError, w)
    else (.ok (), { w with dir := w.dir ++ [e] })
  else (.error PyErr.ldapError, w)

/-- Replace the value of attribute `k` (`MOD_REPLACE` semantics). -/
def setAttr (attrs : List (String × String)) (k v : String) :
    List (String × String) :=
  if attrs.any (fun p => p.1 == k) then
    attrs.map (fun p => if p.1 == k then (k, v) else p)
  else attrs ++ [(k, v)]

/-- Apply one `MOD_REPLACE` modification to an entry; a replace of `uid`
updates the uid field used by searches. -/
def applyMod (e : Entry) (m : String × String) : Entry :=
  if m.1 == "uid" then { e with uid := m.2 }
  else { e with attrs := setAttr e.attrs m.1 m.2 }

/-- Model of `l.modify_s(dn, mod_attrs)`: fails on transport failure or
when no entry has the given DN, otherwise applies the replacements to the
entries at that DN. -/
def modify_s (w : W) (dn : String) (mods : List (String × String)) :
    Except PyErr Unit × W :=
  let (ok, w) := popSched w
  let w := { w with trace := w.trace ++ [Op.modifyOp dn mods] }
  if ok then
    if w.dir.any (fun x => x.dn == dn) then
      let newdir :=
        w.dir.map (fun x => if x.dn == dn then mods.foldl applyMod x else x)
      (.ok (), { w with dir := newdir })
    else (.error PyErr.ldapError, w)
  else (.error PyErr.ldapError, w)

/-- Model of `l.delete_s(dn)`: fails on transport failure or when no
entry has the given DN, otherwise removes the entries at that DN. -/
def delete_s (w : W) (dn : String) : Except PyErr Unit × W :=
  let (ok, w) := popSched w
  let w := { w with trace := w.trace ++ [Op.delOp dn] }
  if ok then
    if w.dir.any (fun x => x.dn == dn) then
      (.ok (), { w with dir := w.dir.filter (fun x => !(x.dn == dn)) })
    else (.error PyErr.ldapError, w)
  else (.error PyErr.ldapError, w)

/-- Model of `l.rename_s(dn, newrdn)`. The source always passes the new
RDN as the string `uid=` followed by the new username; the model takes
that new username directly (the trace records the full RDN string), and
on success changes the uid (and hence the RDN) of the entries at the
given DN to it. Fails on transport failure or when no entry has the
given DN. -/
def rename_s (w : W) (dn : String) (newuid : String) : Except PyErr Unit × W :=
  let (ok, w) := popSched w
  let w := { w with trace := w.trace ++ [Op.renameOp dn ("uid=" ++ newuid)] }
  if ok then
    if w.dir.any (fun x => x.dn == dn) then
      let newdir :=
        w.dir.map (fun x =>
          if x.dn == dn then { x with uid := newuid } else x)
      (.ok (), { w with dir := newdir })
    else (.error PyErr.ldapError, w)
  else (.error PyErr.ldapError, w)

/-- Model of `l.unbind_s()`. -/
def unbind_s (w : W) : Except PyErr Unit × W :=
  let (ok, w) := popSched w
  let w := { w with trace := w.trace ++ [Op.unbindOp] }
  if ok then (.ok (), w) else (.error PyErr.ldapError, w)

/-- Model of `ldapConnect`: the source catches `ldap.LDAPError` from the
bind and returns `False`, so the model returns an `Option`. -/
def ldapConnect (w : W) : Option Unit × W :=
  let (ok, w) := popSched w
  let w := { w with trace := w.trace ++ [Op.connectOp] }
  if ok then (some (), w) else (none, w)

/-- Boolean test that `needle` is a leading segment of `hay`
(the building block for the Python substring test). -/
def startsWith : List Char → List Char → Bool
  | [], _ => true
  | _ :: _, [] => false
  | a :: as, b :: bs => a == b && startsWith as bs

/-- Boolean contiguous-substring test, the model of the Python membership
test `STUPATTERN in username`. -/
def isSubstring (needle : List Char) : List Char → Bool
  | [] => needle.isEmpty
  | c :: rest => startsWith needle (c :: rest) || isSubstring needle rest

/-- Model of the Python slice `username[0:-4]`: the username with its
last 4 characters removed (empty when the username has at most 4
characters, matching the Python slice). -/
def stripLast4 (s : String) : String :=
  (s.toList.take (s.toList.length - 4)).asString

/-- `getUserType` from the source: student-pattern substring test first,
then guest-pattern equality against the username minus its last 4
characters, else employee. -/
def getUserType (cfg : Config) (username : String) : String :=
  if isSubstring cfg.STUPATTERN.toList username.toList then "STU"
  else if cfg.GSTPATTERN == stripLast4 username then "GST"
  else "EMP"

/-- `buildDN` from the source: `uid=<username>` followed by the OU suffix
selected by the user type. -/
def buildDN (cfg : Config) (username : String) : String :=
  let userType := getUserType cfg username
  if userType == "STU" then "uid=" ++ username ++ cfg.STUDENTOU
  else if userType == "GST" then "uid=" ++ username ++ cfg.GUESTOU
  else "uid=" ++ username ++ cfg.EMPOU

/-- The OU suffix `buildDN` appends after `uid=<username>`. -/
def ouSuffix (cfg : Config) (username : String) : String :=
  let userType := getUserType cfg username
  if userType == "STU" then cfg.STUDENTOU
  else if userType == "GST" then cfg.GUESTOU
  else cfg.EMPOU

/-- `findUser` from the source. The source catches `ldap.LDAPError` from
the search and only logs it; the subsequent `len(ldap_result)` then reads
the never-assigned local `ldap_result` and raises a `NameError`, which
propagates to the caller. On a successful search it returns true exactly
when the filter matched a single entry. -/
def findUser (w : W) (username : String) : Except PyErr Bool × W :=
  match search_s w (Filter.uidF username) with
  | (.error _, w) => (.error PyErr.nameError, w)
  | (.ok ldap_result, w) =>
    if ldap_result.length == 0 then (.ok false, w)
    else if ldap_result.length > 1 then (.ok false, w)
    else (.ok true, w)

/-- `containsPosixAccount` from the source; identical structure to
`findUser` with the posixAccount filter, including the `NameError` on a
failed search. -/
def containsPosixAccount (w : W) (username : String) : Except PyErr Bool × W :=
  match search_s w (Filter.uidPosixF username) with
  | (.error _, w) => (.error PyErr.nameError, w)
  | (.ok ldap_result, w) =>
    if ldap_result.length == 0 then (.ok false, w)
    else if ldap_result.length > 1 then (.ok false, w)
    else (.ok true, w)

/-- Placeholder for the external `base64.b64encode(hashlib.sha1(pw))`
digest; an external library capability whose exact value no claim
depends on. -/
def sha1b64 (s : String) : String := s

/-- The parameters of `create` in declaration order, as name-value pairs.
The source iterates the `locals()` dictionary of the nine parameters,
whose iteration order Python 2 leaves unspecified; the model fixes the
declaration order. -/
def createParams (username givenName fullName sn employeeType dNumber ou
    businessCategory userPassword : String) : List (String × String) :=
  [("username", username), ("givenName", givenName), ("fullName", fullName),
   ("sn", sn), ("employeeType", employeeType), ("dNumber", dNumber),
   ("ou", ou), ("businessCategory", businessCategory),
   ("userPassword", userPassword)]

/-- The entry `create` builds: the attribute dictionary of the source,
with the uid and the OU suffix of the DN that `buildDN` computes for the
username. -/
def createEntry (cfg : Config) (username givenName fullName sn employeeType
    dNumber ou businessCategory userPassword : String) : Entry :=
  { uid := username
    parent := ouSuffix cfg username
    objectClass := ["top", "person", "organizationalPerson",
                    "inetOrgPerson", "duPerson", "qmailUser"]
    attrs := [("userPassword", "\x7bSHA\x7d" ++ sha1b64 userPassword),
              ("givenName", givenName), ("cn", fullName), ("sn", sn),
              ("mail", username ++ cfg.MAILDOMAIN),
              ("employeeType", employeeType),
              ("employeeNumber", dNumber), ("o", ou),
              ("businessCategory", businessCategory),
              ("pwdReset", "TRUE")] }

/-- `create` from the source. -/
def create (cfg : Config) (username givenName fullName sn employeeType
    dNumber ou businessCategory userPassword : String) (w : W) :
    Except PyErr String × W :=
  match (createParams username givenName fullName sn employeeType dNumber ou
      businessCategory userPassword).find? (fun p => p.2 == "") with
  | some p =>
    (.ok ("ERROR: Missing an expected input value for " ++ p.1 ++
      " in input file"), w)
  | none =>
  match ldapConnect w with
  | (none, w) => (.ok "ERROR: unable to connect to LDAP server", w)
  | (some _, w) =>
  match findUser w username with
  | (.error e, w) => (.error e, w)
  | (.ok true, w) => (.ok "ERROR: username already taken!", w)
  | (.ok false, w) =>
    match add_s w (createEntry cfg username givenName fullName sn
        employeeType dNumber ou businessCategory userPassword) with
    | (.error _, w) => (.ok "ERROR: Could not create ldap user", w)
    | (.ok _, w) =>
      match unbind_s w with
      | (.error _, w) => (.ok "ERROR: Could not create ldap user", w)
      | (.ok _, w) => (.ok "SUCCESS: User added to ldap", w)

/-- The parameters of `update` in declaration order; same remark on the
`locals()` iteration order as for `createParams`. -/
def updateParams (username newusername uidNumber gidNumber givenName
    fullName sn employeeType dNumber ou businessCategory : String) :
    List (String × String) :=
  [("username", username), ("newusername", newusername),
   ("uidNumber", uidNumber), ("gidNumber", gidNumber),
   ("givenName", givenName), ("fullName", fullName), ("sn", sn),
   ("employeeType", employeeType), ("dNumber", dNumber), ("ou", ou),
   ("businessCategory", businessCategory)]

/-- The standard nine-attribute replacement list built at the top of the
modify block of `update`. -/
def standardMods (cfg : Config) (newusername givenName fullName sn
    employeeType dNumber ou businessCategory : String) :
    List (String × String) :=
  [("givenName", givenName), ("cn", fullName), ("sn", sn),
   ("uid", newusername), ("mail", newusername ++ cfg.MAILDOMAIN),
   ("employeeType", employeeType), ("employeeNumber", dNumber),
   ("o", ou), ("businessCategory", businessCategory)]

/-- The three-attribute posixAccount replacement list of `update`. -/
def posixMods (newusername uidNumber gidNumber : String) :
    List (String × String) :=
  [("uidNumber", uidNumber), ("gidNumber", gidNumber),
   ("homeDirectory", "/home/" ++ newusername)]

/-- The modify block of `update` (source lines 332 onward). The
posixAccount check selects between the two replacement lists; a
`NameError` escaping that check is caught by the final bare except
clause, which stores an error result but does not return, so control
falls through to the success epilogue at lines 374 and 375. That
epilogue logs the local `dn`, which is assigned only at line 312 (the
rename path, tracked by the `dnBound` argument) or at line 355 (inside
the modify try, not reached when the posix check raised): when `dn` is
bound the epilogue completes and the function returns SUCCESS; when it
is unbound, line 375 raises an `UnboundLocalError` that sits outside
every try block and escapes `update`. A transport failure of the modify
or unbind call raises `ldap.LDAPError`, whose handler does return the
error result; on those success paths `dn` was assigned at line 355, so
the epilogue never raises. -/
def updateModifyPhase (cfg : Config) (username newusername uidNumber
    gidNumber givenName fullName sn employeeType dNumber ou
    businessCategory : String) (dnBound : Bool) (w : W) :
    Except PyErr String × W :=
  match containsPosixAccount w username with
  | (.error _, w) =>
    if dnBound then (.ok "SUCCESS: User updated in ldap", w)
    else (.error PyErr.nameError, w)
  | (.ok posix, w) =>
    let mod_attrs :=
      if posix then posixMods newusername uidNumber gidNumber
      else standardMods cfg newusername givenName fullName sn employeeType
        dNumber ou businessCategory
    match modify_s w (buildDN cfg newusername) mod_attrs with
    | (.error _, w) => (.ok "ERROR: Could not update ldap user", w)
    | (.ok _, w) =>
      match unbind_s w with
      | (.error _, w) => (.ok "ERROR: Could not update ldap user", w)
      | (.ok _, w) => (.ok "SUCCESS: User updated in ldap", w)

/-- The confirmation search `findUser(l, newusername)` at source line 326
sits after the rename try/except and outside any try block, so a
`NameError` raised there propagates out of `update`; on success its
result is discarded and the modify block runs. `dnBound` records whether
the rename try block reached the assignment of `dn` at line 312 before
its exception, and is passed through to the modify phase. -/
def updateAfterRenameBlock (cfg : Config) (username newusername uidNumber
    gidNumber givenName fullName sn employeeType dNumber ou
    businessCategory : String) (dnBound : Bool) (w : W) :
    Except PyErr String × W :=
  match findUser w newusername with
  | (.error e, w) => (.error e, w)
  | (.ok _, w) =>
    updateModifyPhase cfg username newusername uidNumber gidNumber givenName
      fullName sn employeeType dNumber ou businessCategory dnBound w

/-- `update` from the source. In the rename try block, both a `NameError`
from the duplicate check and an `ldap.LDAPError` from the rename are
caught by the bare except clause, which stores an error result but does
not return; execution continues at the confirmation search and then the
modify block, so the stored rename error result is dead. -/
def update (cfg : Config) (username newusername uidNumber gidNumber
    givenName fullName sn employeeType dNumber ou businessCategory :
    String) (w : W) : Except PyErr String × W :=
  match (updateParams username newusername uidNumber gidNumber givenName
      fullName sn employeeType dNumber ou businessCategory).find?
      (fun p => p.2 == "") with
  | some p =>
    (.ok ("ERROR: Missing an expected input value for " ++ p.1 ++
      " in input file"), w)
  | none =>
  match ldapConnect w with
  | (none, w) => (.ok "ERROR: unable to connect to LDAP server", w)
  | (some _, w) =>
  match findUser w username with
  | (.error e, w) => (.error e, w)
  | (.ok false, w) => (.ok "ERROR: user could not be found!", w)
  | (.ok true, w) =>
    if username ≠ newusername then
      if getUserType cfg username ≠ getUserType cfg newusername then
        (.ok "ERROR: won't rename users across different types", w)
      else
        match findUser w newusername with
        | (.error _, w) =>
          updateAfterRenameBlock cfg username newusername uidNumber gidNumber
            givenName fullName sn employeeType dNumber ou businessCategory
            false w
        | (.ok true, w) => (.ok "ERROR: newusername already taken!", w)
        | (.ok false, w) =>
          match rename_s w (buildDN cfg username) newusername with
          | (.error _, w) =>
            updateAfterRenameBlock cfg username newusername uidNumber
              gidNumber givenName fullName sn employeeType dNumber ou
              businessCategory true w
          | (.ok _, w) =>
            updateAfterRenameBlock cfg username newusername uidNumber
              gidNumber givenName fullName sn employeeType dNumber ou
              businessCategory true w
    else
      updateModifyPhase cfg username newusername uidNumber gidNumber
        givenName fullName sn employeeType dNumber ou businessCategory
        false w

/-- `delete` from the source. -/
def delete (cfg : Config) (username : String) (w : W) :
    Except PyErr String × W :=
  if username == "" then
    (.ok "ERROR: Missing an expected input value for username in input file",
      w)
  else
  match ldapConnect w with
  | (none, w) => (.ok "ERROR: unable to connect to LDAP server", w)
  | (some _, w) =>
  match findUser w username with
  | (.error e, w) => (.error e, w)
  | (.ok false, w) => (.ok "ERROR: user could not be found!", w)
  | (.ok true, w) =>
    match delete_s w (buildDN cfg username) with
    | (.error _, w) => (.ok "ERROR: Could not delete ldap user", w)
    | (.ok _, w) =>
      match unbind_s w with
      | (.error _, w) => (.ok "ERROR: Could not delete ldap user", w)
      | (.ok _, w) => (.ok "SUCCESS: User deleted from ldap", w)

/-- One input record: the fields of a useractions element the processing
reads (loginDisabled and description are accepted but never read). -/
structure Row where
  action : String
  username : String
  newusername : String
  uidNumber : String
  gidNumber : String
  givenName : String
  fullName : String
  sn : String
  employeeType : String
  dNumber : String
  primO : String
  businessCategory : String
  userPassword : String
deriving Repr, DecidableEq

/-- The per-record dispatch of `main`. -/
def dispatch (cfg : Config) (row : Row) (w : W) : Except PyErr String × W :=
  if row.action == "create" then
    create cfg row.username row.givenName row.fullName row.sn
      row.employeeType row.dNumber row.primO row.businessCategory
      row.userPassword w
  else if row.action == "update" then
    update cfg row.username row.newusername row.uidNumber row.gidNumber
      row.givenName row.fullName row.sn row.employeeType row.dNumber
      row.primO row.businessCategory w
  else if row.action == "delete" then
    delete cfg row.username w
  else (.ok "ERROR: Unrecognized action", w)

/-- The record loop of `main`: each record yields one output row
`[action, username, result]` — unless the processor raises, in which case
the exception is caught by the outer handler of `main`, the failing
record gets no output row, and no further record is processed. -/
def runBatch (cfg : Config) : List Row → W → List (List String) × W
  | [], w => ([], w)
  | row :: rest, w =>
    match dispatch cfg row w with
    | (.ok result, w) =>
      let (rows, w) := runBatch cfg rest w
      ([row.action, row.username, result] :: rows, w)
    | (.error _, w) => ([], w)

/-! Concrete fixtures used by witnesses and counterexamples. -/

/-- A concrete configuration: student pattern `_`, guest pattern `gst`,
as in the examples of the documentation. -/
def cfg0 : Config :=
  { MAILDOMAIN := "@uni.edu", STUPATTERN := "_", GSTPATTERN := "gst",
    STUDENTOU := ",ou=s", GUESTOU := ",ou=g", EMPOU := ",ou=e" }

/-- A concrete employee entry carrying the posixAccount object class,
placed under the employee OU of `cfg0`. -/
def eAlice : Entry :=
  { uid := "alice", parent := ",ou=e",
    objectClass := ["top", "posixAccount"], attrs := [] }

/-- A delete action record for a given username. -/
def rowDelete (u : String) : Row :=
  { action := "delete", username := u, newusername := u, uidNumber := "1",
    gidNumber := "1", givenName := "g", fullName := "f", sn := "s",
    employeeType := "e", dNumber := "d", primO := "o",
    businessCategory := "b", userPassword := "p" }

/-!
Helper lemmas: evaluation of the directory primitives under an empty
(all-success) transport schedule, and the bridge between the boolean
substring test and its mathematical description.
-/

theorem popSched_nil (d : List Entry) (t : List Op) :
    popSched ⟨d, [], t⟩ = (true, ⟨d, [], t⟩) := rfl

theorem ldapConnect_nil (d : List Entry) (t : List Op) :
    ldapConnect ⟨d, [], t⟩ = (some (), ⟨d, [], t ++ [Op.connectOp]⟩) := rfl

theorem search_s_nil (d : List Entry) (t : List Op) (f : Filter) :
    search_s ⟨d, [], t⟩ f =
      (.ok (d.filter (fun e => matchesFilter f e)),
       ⟨d, [], t ++ [Op.searchOp f]⟩) := rfl

theorem unbind_s_nil (d : List Entry) (t : List Op) :
    unbind_s ⟨d, [], t⟩ = (.ok (), ⟨d, [], t ++ [Op.unbindOp]⟩) := rfl

theorem add_s_nil (d : List Entry) (t : List Op) (e : Entry) :
    add_s ⟨d, [], t⟩ e =
      (if d.any (fun x => x.dn == e.dn) then
        ((.error PyErr.ldapError : Except PyErr Unit),
         (⟨d, [], t ++ [Op.addOp e.dn]⟩ : W))
      else (.ok (), ⟨d ++ [e], [], t ++ [Op.addOp e.dn]⟩)) := rfl

theorem modify_s_nil (d : List Entry) (t : List Op) (dn : String)
    (mods : List (String × String)) :
    modify_s ⟨d, [], t⟩ dn mods =
      (if d.any (fun x => x.dn == dn) then
        ((.ok () : Except PyErr Unit),
         (⟨d.map (fun x => if x.dn == dn then mods.foldl applyMod x else x),
           [], t ++ [Op.modifyOp dn mods]⟩ : W))
      else (.error PyErr.ldapError, ⟨d, [], t ++ [Op.modifyOp dn mods]⟩)) :=
  rfl

theorem delete_s_nil (d : List Entry) (t : List Op) (dn : String) :
    delete_s ⟨d, [], t⟩ dn =
      (if d.any (fun x => x.dn == dn) then
        ((.ok () : Except PyErr Unit),
         (⟨d.filter (fun x => !(x.dn == dn)), [], t ++ [Op.delOp dn]⟩ : W))
      else (.error PyErr.ldapError, ⟨d, [], t ++ [Op.delOp dn]⟩)) := rfl

theorem rename_s_nil (d : List Entry) (t : List Op) (dn newuid : String) :
    rename_s ⟨d, [], t⟩ dn newuid =
      (if d.any (fun x => x.dn == dn) then
        ((.ok () : Except PyErr Unit),
         (⟨d.map (fun x =>
             if x.dn == dn then { x with uid := newuid } else x),
           [], t ++ [Op.renameOp dn ("uid=" ++ newuid)]⟩ : W))
      else (.error PyErr.ldapError,
        ⟨d, [], t ++ [Op.renameOp dn ("uid=" ++ newuid)]⟩)) :=
  rfl

theorem findAux (n : Nat) (w : W) :
    (if n == 0 then ((.ok false : Except PyErr Bool), w)
     else if n > 1 then (.ok false, w) else (.ok true, w)) =
      (.ok (n == 1), w) := by
  rcases n with _ | _ | n
  · rfl
  · simp
  · simp [beq_iff_eq]

theorem findUser_nil (d : List Entry) (t : List Op) (u : String) :
    findUser ⟨d, [], t⟩ u =
      (.ok ((d.filter (fun e => e.uid == u)).length == 1),
       ⟨d, [], t ++ [Op.searchOp (Filter.uidF u)]⟩) := by
  rw [findUser, search_s_nil]
  simp only [matchesFilter]
  rw [findAux]

theorem containsPosixAccount_nil (d : List Entry) (t : List Op)
    (u : String) :
    containsPosixAccount ⟨d, [], t⟩ u =
      (.ok ((d.filter
          (fun e => e.uid == u && e.objectClass.contains "posixAccount")).length
        == 1),
       ⟨d, [], t ++ [Op.searchOp (Filter.uidPosixF u)]⟩) := by
  rw [containsPosixAccount, search_s_nil]
  simp only [matchesFilter]
  rw [findAux]

theorem startsWith_iff (n : List Char) : ∀ h : List Char,
    (startsWith n h = true ↔ ∃ t, h = n ++ t) := by
  induction n with
  | nil =>
    intro h
    simp [startsWith]
  | cons a as ih =>
    intro h
    cases h with
    | nil =>
      simp [startsWith]
    | cons b bs =>
      simp only [startsWith, Bool.and_eq_true, beq_iff_eq, ih,
        List.cons_append, List.cons.injEq]
      constructor
      · rintro ⟨hab, t, ht⟩
        exact ⟨t, hab.symm, ht⟩
      · rintro ⟨t, hba, ht⟩
        exact ⟨hba.symm, t, ht⟩

theorem isSubstring_iff (n : List Char) : ∀ h : List Char,
    (isSubstring n h = true ↔ ∃ s t, h = s ++ n ++ t) := by
  intro h
  induction h with
  | nil =>
    simp only [isSubstring, List.isEmpty_iff]
    constructor
    · rintro rfl
      exact ⟨[], [], rfl⟩
    · rintro ⟨s, t, hst⟩
      exact (List.append_eq_nil.mp (List.append_eq_nil.mp hst.symm).1).2
  | cons c rest ih =>
    simp only [isSubstring, Bool.or_eq_true, startsWith_iff, ih]
    constructor
    · rintro (⟨t, ht⟩ | ⟨s, t, hst⟩)
      · exact ⟨[], t, by simp [ht]⟩
      · exact ⟨c :: s, t, by simp [hst]⟩
    · rintro ⟨s, t, hst⟩
      cases s with
      | nil =>
        exact Or.inl ⟨t, by simpa using hst⟩
      | cons c2 s2 =>
        simp only [List.cons_append, List.cons.injEq] at hst
        exact Or.inr ⟨s2, t, hst.2⟩

theorem createParams_none (username givenName fullName sn employeeType
    dNumber ou businessCategory userPassword : String)
    (h1 : username ≠ "") (h2 : givenName ≠ "") (h3 : fullName ≠ "")
    (h4 : sn ≠ "") (h5 : employeeType ≠ "") (h6 : dNumber ≠ "")
    (h7 : ou ≠ "") (h8 : businessCategory ≠ "") (h9 : userPassword ≠ "") :
    (createParams username givenName fullName sn employeeType dNumber ou
      businessCategory userPassword).find? (fun p => p.2 == "") = none := by
  have e1 := beq_eq_false_iff_ne.mpr h1
  have e2 := beq_eq_false_iff_ne.mpr h2
  have e3 := beq_eq_false_iff_ne.mpr h3
  have e4 := beq_eq_false_iff_ne.mpr h4
  have e5 := beq_eq_false_iff_ne.mpr h5
  have e6 := beq_eq_false_iff_ne.mpr h6
  have e7 := beq_eq_false_iff_ne.mpr h7
  have e8 := beq_eq_false_iff_ne.mpr h8
  have e9 := beq_eq_false_iff_ne.mpr h9
  simp [createParams, List.find?, e1, e2, e3, e4, e5, e6, e7, e8, e9]

theorem updateParams_none (username newusername uidNumber gidNumber
    givenName fullName sn employeeType dNumber ou businessCategory : String)
    (h1 : username ≠ "") (h2 : newusername ≠ "") (h3 : uidNumber ≠ "")
    (h4 : gidNumber ≠ "") (h5 : givenName ≠ "") (h6 : fullName ≠ "")
    (h7 : sn ≠ "") (h8 : employeeType ≠ "") (h9 : dNumber ≠ "")
    (h10 : ou ≠ "") (h11 : businessCategory ≠ "") :
    (updateParams username newusername uidNumber gidNumber givenName
      fullName sn employeeType dNumber ou businessCategory).find?
      (fun p => p.2 == "") = none := by
  have e1 := beq_eq_false_iff_ne.mpr h1
  have e2 := beq_eq_false_iff_ne.mpr h2
  have e3 := beq_eq_false_iff_ne.mpr h3
  have e4 := beq_eq_false_iff_ne.mpr h4
  have e5 := beq_eq_false_iff_ne.mpr h5
  have e6 := beq_eq_false_iff_ne.mpr h6
  have e7 := beq_eq_false_iff_ne.mpr h7
  have e8 := beq_eq_false_iff_ne.mpr h8
  have e9 := beq_eq_false_iff_ne.mpr h9
  have e10 := beq_eq_false_iff_ne.mpr h10
  have e11 := beq_eq_false_iff_ne.mpr h11
  simp [updateParams, List.find?, e1, e2, e3, e4, e5, e6, e7, e8, e9, e10,
    e11]

theorem buildDN_eq (cfg : Config) (u : String) :
    buildDN cfg u = "uid=" ++ u ++ ouSuffix cfg u := by
  simp only [buildDN, ouSuffix]
  split
  · rfl
  · split
    · rfl
    · rfl

theorem ouSuffix_congr (cfg : Config) (u v : String)
    (h : getUserType cfg u = getUserType cfg v) :
    ouSuffix cfg u = ouSuffix cfg v := by
  simp only [ouSuffix, h]


/-! Helper lemmas for the connection-scoping analysis: under a
failure-free transport, each processor closes the connection (calls
unbind) exactly on its success path. -/

theorem updateModifyPhase_unbind (cfg : Config)
    (username newusername uidNumber gidNumber givenName fullName sn
      employeeType dNumber ou businessCategory : String) (dnBound : Bool)
    (d : List Entry) (t : List Op) (ht : Op.unbindOp ∉ t) :
    ((updateModifyPhase cfg username newusername uidNumber gidNumber
        givenName fullName sn employeeType dNumber ou businessCategory
        dnBound ⟨d, [], t⟩).1 = .ok "SUCCESS: User updated in ldap" ↔
      Op.unbindOp ∈ (updateModifyPhase cfg username newusername uidNumber
        gidNumber givenName fullName sn employeeType dNumber ou
        businessCategory dnBound ⟨d, [], t⟩).2.trace) := by
  simp only [updateModifyPhase, containsPosixAccount_nil]
  cases hb : ((d.filter (fun e => e.uid == username &&
      e.objectClass.contains "posixAccount")).length == 1) <;>
    simp only [modify_s_nil] <;>
    by_cases hdn : (d.any (fun x =>
      x.dn == buildDN cfg newusername)) = true <;>
    simp [hdn, unbind_s_nil, ht]

theorem updateAfterRenameBlock_unbind (cfg : Config)
    (username newusername uidNumber gidNumber givenName fullName sn
      employeeType dNumber ou businessCategory : String) (dnBound : Bool)
    (d : List Entry) (t : List Op) (ht : Op.unbindOp ∉ t) :
    ((updateAfterRenameBlock cfg username newusername uidNumber gidNumber
        givenName fullName sn employeeType dNumber ou businessCategory
        dnBound ⟨d, [], t⟩).1 = .ok "SUCCESS: User updated in ldap" ↔
      Op.unbindOp ∈ (updateAfterRenameBlock cfg username newusername
        uidNumber gidNumber givenName fullName sn employeeType dNumber ou
        businessCategory dnBound ⟨d, [], t⟩).2.trace) := by
  simp only [updateAfterRenameBlock, findUser_nil]
  exact updateModifyPhase_unbind cfg username newusername uidNumber
    gidNumber givenName fullName sn employeeType dNumber ou businessCategory
    dnBound d _ (by simp [ht])

theorem create_unbind_iff (cfg : Config)
    (username givenName fullName sn employeeType dNumber ou
      businessCategory userPassword : String) (d : List Entry)
    (h1 : username ≠ "") (h2 : givenName ≠ "") (h3 : fullName ≠ "")
    (h4 : sn ≠ "") (h5 : employeeType ≠ "") (h6 : dNumber ≠ "")
    (h7 : ou ≠ "") (h8 : businessCategory ≠ "") (h9 : userPassword ≠ "") :
    ((create cfg username givenName fullName sn employeeType dNumber ou
        businessCategory userPassword ⟨d, [], []⟩).1 =
      .ok "SUCCESS: User added to ldap" ↔
    Op.unbindOp ∈ (create cfg username givenName fullName sn employeeType
        dNumber ou businessCategory userPassword ⟨d, [], []⟩).2.trace) := by
  simp only [create,
    createParams_none username givenName fullName sn employeeType dNumber
      ou businessCategory userPassword h1 h2 h3 h4 h5 h6 h7 h8 h9,
    ldapConnect_nil, findUser_nil, List.nil_append]
  cases hb : ((d.filter (fun e => e.uid == username)).length == 1)
  · simp only [add_s_nil, unbind_s_nil]
    by_cases hdn : (d.any (fun x => x.dn ==
        (createEntry cfg username givenName fullName sn employeeType dNumber
          ou businessCategory userPassword).dn)) = true
    · simp [hdn]
    · simp [hdn, unbind_s_nil]
  · simp

theorem update_unbind_iff (cfg : Config)
    (username newusername uidNumber gidNumber givenName fullName sn
      employeeType dNumber ou businessCategory : String) (d : List Entry)
    (h1 : username ≠ "") (h2 : newusername ≠ "") (h3 : uidNumber ≠ "")
    (h4 : gidNumber ≠ "") (h5 : givenName ≠ "") (h6 : fullName ≠ "")
    (h7 : sn ≠ "") (h8 : employeeType ≠ "") (h9 : dNumber ≠ "")
    (h10 : ou ≠ "") (h11 : businessCategory ≠ "") :
    ((update cfg username newusername uidNumber gidNumber givenName
        fullName sn employeeType dNumber ou businessCategory
        ⟨d, [], []⟩).1 = .ok "SUCCESS: User updated in ldap" ↔
      Op.unbindOp ∈ (update cfg username newusername uidNumber gidNumber
        givenName fullName sn employeeType dNumber ou businessCategory
        ⟨d, [], []⟩).2.trace) := by
  simp only [update,
    updateParams_none username newusername uidNumber gidNumber givenName
      fullName sn employeeType dNumber ou businessCategory h1 h2 h3 h4 h5
      h6 h7 h8 h9 h10 h11,
    ldapConnect_nil, findUser_nil, List.nil_append]
  cases hb1 : ((d.filter (fun e => e.uid == username)).length == 1)
  · simp
  · dsimp only
    by_cases hun : username = newusername
    · rw [if_neg (by simp [hun])]
      exact updateModifyPhase_unbind cfg username newusername uidNumber
        gidNumber givenName fullName sn employeeType dNumber ou
        businessCategory false d _ (by simp)
    · rw [if_pos hun]
      by_cases hty : getUserType cfg username = getUserType cfg newusername
      · rw [if_neg (by simp [hty])]
        simp only [findUser_nil]
        cases hb2 : ((d.filter (fun e => e.uid == newusername)).length == 1)
        · simp only [rename_s_nil]
          by_cases hrn : (d.any (fun x =>
              x.dn == buildDN cfg username)) = true
          · rw [if_pos hrn]
            exact updateAfterRenameBlock_unbind cfg username newusername
              uidNumber gidNumber givenName fullName sn employeeType dNumber
              ou businessCategory true _ _ (by simp)
          · rw [if_neg hrn]
            exact updateAfterRenameBlock_unbind cfg username newusername
              uidNumber gidNumber givenName fullName sn employeeType dNumber
              ou businessCategory true _ _ (by simp)
        · simp
      · rw [if_pos hty]
        simp

theorem delete_unbind_iff (cfg : Config) (username : String)
    (d : List Entry) (h1 : username ≠ "") :
    ((delete cfg username ⟨d, [], []⟩).1 =
        .ok "SUCCESS: User deleted from ldap" ↔
      Op.unbindOp ∈ (delete cfg username ⟨d, [], []⟩).2.trace) := by
  have e1 := beq_eq_false_iff_ne.mpr h1
  simp only [delete, e1, Bool.false_eq_true, if_false, ldapConnect_nil,
    findUser_nil, List.nil_append, reduceIte]
  cases hb : ((d.filter (fun e => e.uid == username)).length == 1)
  · simp
  · simp only [delete_s_nil]
    by_cases hdn : (d.any (fun x => x.dn == buildDN cfg username)) = true
    · simp [hdn, unbind_s_nil]
    · simp [hdn]

/-- C4 counterexample: a create on an already-existing username, with a
working transport, opens a directory connection (the trace starts with a
connect) and returns the duplicate error without ever calling unbind, so
the connection is not closed on this exit path, refuting the claim as
stated. -/
theorem create_duplicateLeavesConnectionOpen :
    create cfg0 "alice" "A" "AI" "I" "ADM" "D1" "Bio" "staff" "pw"
        ⟨[eAlice], [], []⟩ =
      (.ok "ERROR: username already taken!",
       ⟨[eAlice], [],
        [Op.connectOp, Op.searchOp (Filter.uidF "alice")]⟩) ∧
    Op.unbindOp ∉ [Op.connectOp, Op.searchOp (Filter.uidF "alice")] ∧
    Op.connectOp ∈ [Op.connectOp, Op.searchOp (Filter.uidF "alice")] :=
  ⟨rfl, by decide, by decide⟩

/-- C4 (amended): under a failure-free transport and with all required
fields present, each of the three processors closes its directory
connection (calls unbind) exactly on the success exit path: the result is
the success string if and only if the trace contains an unbind operation.
In particular every failure exit path after a successful connect returns
with the connection left open (and a validation failure opens no
connection at all, see the validation theorem). -/
theorem connectionClosedOnlyOnSuccess (cfg : Config)
    (username newusername uidNumber gidNumber givenName fullName sn
      employeeType dNumber ou businessCategory userPassword : String)
    (d : List Entry)
    (h1 : username ≠ "") (h2 : newusername ≠ "") (h3 : uidNumber ≠ "")
    (h4 : gidNumber ≠ "") (h5 : givenName ≠ "") (h6 : fullName ≠ "")
    (h7 : sn ≠ "") (h8 : employeeType ≠ "") (h9 : dNumber ≠ "")
    (h10 : ou ≠ "") (h11 : businessCategory ≠ "")
    (h12 : userPassword ≠ "") :
    ((create cfg username givenName fullName sn employeeType dNumber ou
        businessCategory userPassword ⟨d, [], []⟩).1 =
      .ok "SUCCESS: User added to ldap" ↔
      Op.unbindOp ∈ (create cfg username givenName fullName sn employeeType
        dNumber ou businessCategory userPassword ⟨d, [], []⟩).2.trace) ∧
    ((update cfg username newusername uidNumber gidNumber givenName
        fullName sn employeeType dNumber ou businessCategory
        ⟨d, [], []⟩).1 = .ok "SUCCESS: User updated in ldap" ↔
      Op.unbindOp ∈ (update cfg username newusername uidNumber gidNumber
        givenName fullName sn employeeType dNumber ou businessCategory
        ⟨d, [], []⟩).2.trace) ∧
    ((delete cfg username ⟨d, [], []⟩).1 =
        .ok "SUCCESS: User deleted from ldap" ↔
      Op.unbindOp ∈ (delete cfg username ⟨d, [], []⟩).2.trace) :=
  ⟨create_unbind_iff cfg username givenName fullName sn employeeType
      dNumber ou businessCategory userPassword d h1 h5 h6 h7 h8 h9 h10 h11
      h12,
   update_unbind_iff cfg username newusername uidNumber gidNumber givenName
      fullName sn employeeType dNumber ou businessCategory d h1 h2 h3 h4 h5
      h6 h7 h8 h9 h10 h11,
   delete_unbind_iff cfg username d h1⟩

/-- Witness for C4 at a concrete configuration, directory and input. -/
theorem connectionClosedOnlyOnSuccess_witness :
    (("alice" : String) ≠ "" ∧ ("alicf" : String) ≠ "" ∧
     ("1" : String) ≠ "" ∧ ("2" : String) ≠ "" ∧ ("A" : String) ≠ "" ∧
     ("A I" : String) ≠ "" ∧ ("I" : String) ≠ "" ∧
     ("ADM" : String) ≠ "" ∧ ("D1" : String) ≠ "" ∧
     ("Bio" : String) ≠ "" ∧ ("staff" : String) ≠ "" ∧
     ("pw" : String) ≠ "") ∧
    ((create cfg0 "alice" "A" "A I" "I" "ADM" "D1" "Bio" "staff" "pw"
        ⟨[eAlice], [], []⟩).1 = .ok "SUCCESS: User added to ldap" ↔
      Op.unbindOp ∈ (create cfg0 "alice" "A" "A I" "I" "ADM" "D1" "Bio"
        "staff" "pw" ⟨[eAlice], [], []⟩).2.trace) ∧
    ((update cfg0 "alice" "alicf" "1" "2" "A" "A I" "I" "ADM" "D1" "Bio"
        "staff" ⟨[eAlice], [], []⟩).1 =
        .ok "SUCCESS: User updated in ldap" ↔
      Op.unbindOp ∈ (update cfg0 "alice" "alicf" "1" "2" "A" "A I" "I"
        "ADM" "D1" "Bio" "staff" ⟨[eAlice], [], []⟩).2.trace) ∧
    ((delete cfg0 "alice" ⟨[eAlice], [], []⟩).1 =
        .ok "SUCCESS: User deleted from ldap" ↔
      Op.unbindOp ∈ (delete cfg0 "alice" ⟨[eAlice], [], []⟩).2.trace) :=
  ⟨by decide,
   connectionClosedOnlyOnSuccess cfg0 "alice" "alicf" "1" "2" "A" "A I" "I"
     "ADM" "D1" "Bio" "staff" "pw" [eAlice] (by decide) (by decide)
     (by decide) (by decide) (by decide) (by decide) (by decide) (by decide)
     (by decide) (by decide) (by decide) (by decide)⟩


/-- C7: a create whose username already has exactly one directory entry
(so the existence check returns true) returns the duplicate-error outcome
and performs no directory add: with a working transport the only
directory operations are the connect and the uid search, the directory
contents are unchanged, and no add operation enters the trace. The
non-empty hypotheses make the validation pass; the connect succeeds under
the empty (all-success) schedule. -/
theorem create_duplicate_noAdd (cfg : Config)
    (username givenName fullName sn employeeType dNumber ou
      businessCategory userPassword : String) (d : List Entry) (t : List Op)
    (h1 : username ≠ "") (h2 : givenName ≠ "") (h3 : fullName ≠ "")
    (h4 : sn ≠ "") (h5 : employeeType ≠ "") (h6 : dNumber ≠ "")
    (h7 : ou ≠ "") (h8 : businessCategory ≠ "") (h9 : userPassword ≠ "")
    (hdup : (d.filter (fun e => e.uid == username)).length = 1) :
    create cfg username givenName fullName sn employeeType dNumber ou
        businessCategory userPassword ⟨d, [], t⟩ =
      (.ok "ERROR: username already taken!",
       ⟨d, [], t ++ [Op.connectOp, Op.searchOp (Filter.uidF username)]⟩) ∧
    (∀ dnx, Op.addOp dnx ∈ (create cfg username givenName fullName sn
        employeeType dNumber ou businessCategory userPassword
        ⟨d, [], t⟩).2.trace → Op.addOp dnx ∈ t) := by
  have hmain : create cfg username givenName fullName sn employeeType
      dNumber ou businessCategory userPassword ⟨d, [], t⟩ =
      (.ok "ERROR: username already taken!",
       ⟨d, [], t ++ [Op.connectOp, Op.searchOp (Filter.uidF username)]⟩) := by
    simp only [create,
      createParams_none username givenName fullName sn employeeType dNumber
        ou businessCategory userPassword h1 h2 h3 h4 h5 h6 h7 h8 h9,
      ldapConnect_nil, findUser_nil, hdup, List.append_assoc,
      List.cons_append, List.nil_append, Nat.reduceBEq]
  refine ⟨hmain, ?_⟩
  intro dnx hmem
  rw [hmain] at hmem
  simpa using hmem

/-- Witness for C7: a create for the existing user alice. -/
theorem create_duplicate_noAdd_witness :
    (([eAlice].filter (fun e => e.uid == "alice")).length = 1) ∧
    create cfg0 "alice" "A" "A I" "I" "ADM" "D1" "Bio" "staff" "pw"
        ⟨[eAlice], [], []⟩ =
      (.ok "ERROR: username already taken!",
       ⟨[eAlice], [],
        [Op.connectOp, Op.searchOp (Filter.uidF "alice")]⟩) :=
  ⟨by decide,
   by
    have h := (create_duplicate_noAdd cfg0 "alice" "A" "A I" "I" "ADM" "D1"
      "Bio" "staff" "pw" [eAlice] [] (by decide) (by decide) (by decide)
      (by decide) (by decide) (by decide) (by decide) (by decide)
      (by decide) (by decide)).1
    simpa using h⟩

/-- C8: an update or a delete for a username with no directory entry (so
the existence check returns false) returns exactly the outcome string
"ERROR: user could not be found!", and performs no modify, delete or
rename: with a working transport the only directory operations are the
connect and the uid search. The non-empty hypotheses make the validation
pass. -/
theorem notFound_noMutation (cfg : Config)
    (username newusername uidNumber gidNumber givenName fullName sn
      employeeType dNumber ou businessCategory : String)
    (d : List Entry) (t : List Op)
    (h1 : username ≠ "") (h2 : newusername ≠ "") (h3 : uidNumber ≠ "")
    (h4 : gidNumber ≠ "") (h5 : givenName ≠ "") (h6 : fullName ≠ "")
    (h7 : sn ≠ "") (h8 : employeeType ≠ "") (h9 : dNumber ≠ "")
    (h10 : ou ≠ "") (h11 : businessCategory ≠ "")
    (hnone : d.filter (fun e => e.uid == username) = []) :
    update cfg username newusername uidNumber gidNumber givenName fullName
        sn employeeType dNumber ou businessCategory ⟨d, [], t⟩ =
      (.ok "ERROR: user could not be found!",
       ⟨d, [], t ++ [Op.connectOp, Op.searchOp (Filter.uidF username)]⟩) ∧
    delete cfg username ⟨d, [], t⟩ =
      (.ok "ERROR: user could not be found!",
       ⟨d, [], t ++ [Op.connectOp, Op.searchOp (Filter.uidF username)]⟩) ∧
    (∀ dnx mods, Op.modifyOp dnx mods ∈ (update cfg username newusername
        uidNumber gidNumber givenName fullName sn employeeType dNumber ou
        businessCategory ⟨d, [], t⟩).2.trace → Op.modifyOp dnx mods ∈ t) ∧
    (∀ dnx r, Op.renameOp dnx r ∈ (update cfg username newusername
        uidNumber gidNumber givenName fullName sn employeeType dNumber ou
        businessCategory ⟨d, [], t⟩).2.trace → Op.renameOp dnx r ∈ t) ∧
    (∀ dnx, Op.delOp dnx ∈ (delete cfg username
        ⟨d, [], t⟩).2.trace → Op.delOp dnx ∈ t) := by
  have e1 := beq_eq_false_iff_ne.mpr h1
  have hu : update cfg username newusername uidNumber gidNumber givenName
      fullName sn employeeType dNumber ou businessCategory ⟨d, [], t⟩ =
      (.ok "ERROR: user could not be found!",
       ⟨d, [], t ++ [Op.connectOp, Op.searchOp (Filter.uidF username)]⟩) := by
    simp only [update,
      updateParams_none username newusername uidNumber gidNumber givenName
        fullName sn employeeType dNumber ou businessCategory h1 h2 h3 h4 h5
        h6 h7 h8 h9 h10 h11,
      ldapConnect_nil, findUser_nil, hnone, List.length_nil,
      List.append_assoc, List.cons_append, List.nil_append, Nat.reduceBEq]
  have hd : delete cfg username ⟨d, [], t⟩ =
      (.ok "ERROR: user could not be found!",
       ⟨d, [], t ++ [Op.connectOp, Op.searchOp (Filter.uidF username)]⟩) := by
    simp only [delete, e1, Bool.false_eq_true, if_false, ldapConnect_nil,
      findUser_nil, hnone, List.length_nil, List.append_assoc,
      List.cons_append, List.nil_append, Nat.reduceBEq, reduceIte]
  refine ⟨hu, hd, ?_, ?_, ?_⟩
  · intro dnx mods hmem
    rw [hu] at hmem
    simpa using hmem
  · intro dnx r hmem
    rw [hu] at hmem
    simpa using hmem
  · intro dnx hmem
    rw [hd] at hmem
    simpa using hmem

/-- Witness for C8 on an empty directory. -/
theorem notFound_noMutation_witness :
    (([] : List Entry).filter (fun e => e.uid == "ghost") = []) ∧
    update cfg0 "ghost" "ghost" "1" "2" "A" "A I" "I" "ADM" "D1" "Bio"
        "staff" ⟨[], [], []⟩ =
      (.ok "ERROR: user could not be found!",
       ⟨[], [], [Op.connectOp, Op.searchOp (Filter.uidF "ghost")]⟩) ∧
    delete cfg0 "ghost" ⟨[], [], []⟩ =
      (.ok "ERROR: user could not be found!",
       ⟨[], [], [Op.connectOp, Op.searchOp (Filter.uidF "ghost")]⟩) :=
  ⟨by decide,
   by
    have h := notFound_noMutation cfg0 "ghost" "ghost" "1" "2" "A" "A I"
      "I" "ADM" "D1" "Bio" "staff" [] [] (by decide) (by decide) (by decide)
      (by decide) (by decide) (by decide) (by decide) (by decide)
      (by decide) (by decide) (by decide) (by decide)
    exact ⟨by simpa using h.1, by simpa using h.2.1⟩⟩

/-- C9: an update that renames (newusername different from username,
with the user present so the existence check passes) between differing
user types returns the cross-type error outcome and performs neither a
rename nor an attribute modification: with a working transport the only
directory operations are the connect and the uid search. -/
theorem crossTypeRename_blocked (cfg : Config)
    (username newusername uidNumber gidNumber givenName fullName sn
      employeeType dNumber ou businessCategory : String)
    (d : List Entry) (t : List Op)
    (h1 : username ≠ "") (h2 : newusername ≠ "") (h3 : uidNumber ≠ "")
    (h4 : gidNumber ≠ "") (h5 : givenName ≠ "") (h6 : fullName ≠ "")
    (h7 : sn ≠ "") (h8 : employeeType ≠ "") (h9 : dNumber ≠ "")
    (h10 : ou ≠ "") (h11 : businessCategory ≠ "")
    (hone : (d.filter (fun e => e.uid == username)).length = 1)
    (hneq : username ≠ newusername)
    (htype : getUserType cfg username ≠ getUserType cfg newusername) :
    update cfg username newusername uidNumber gidNumber givenName fullName
        sn employeeType dNumber ou businessCategory ⟨d, [], t⟩ =
      (.ok "ERROR: won't rename users across different types",
       ⟨d, [], t ++ [Op.connectOp, Op.searchOp (Filter.uidF username)]⟩) ∧
    (∀ dnx r, Op.renameOp dnx r ∈ (update cfg username newusername
        uidNumber gidNumber givenName fullName sn employeeType dNumber ou
        businessCategory ⟨d, [], t⟩).2.trace → Op.renameOp dnx r ∈ t) ∧
    (∀ dnx mods, Op.modifyOp dnx mods ∈ (update cfg username newusername
        uidNumber gidNumber givenName fullName sn employeeType dNumber ou
        businessCategory ⟨d, [], t⟩).2.trace → Op.modifyOp dnx mods ∈ t) := by
  have hmain : update cfg username newusername uidNumber gidNumber
      givenName fullName sn employeeType dNumber ou businessCategory
      ⟨d, [], t⟩ =
      (.ok "ERROR: won't rename users across different types",
       ⟨d, [], t ++ [Op.connectOp, Op.searchOp (Filter.uidF username)]⟩) := by
    simp only [update,
      updateParams_none username newusername uidNumber gidNumber givenName
        fullName sn employeeType dNumber ou businessCategory h1 h2 h3 h4 h5
        h6 h7 h8 h9 h10 h11,
      ldapConnect_nil, findUser_nil, hone, List.append_assoc,
      List.cons_append, List.nil_append, Nat.reduceBEq, ne_eq, hneq, htype]
    simp [hneq, htype]
  refine ⟨hmain, ?_, ?_⟩
  · intro dnx r hmem
    rw [hmain] at hmem
    simpa using hmem
  · intro dnx mods hmem
    rw [hmain] at hmem
    simpa using hmem

/-- Witness for C9: alice (an employee under cfg0) renamed to bob_x
(a student under cfg0, because of the underscore). -/
theorem crossTypeRename_blocked_witness :
    (([eAlice].filter (fun e => e.uid == "alice")).length = 1 ∧
     ("alice" : String) ≠ "bob_x" ∧
     getUserType cfg0 "alice" ≠ getUserType cfg0 "bob_x") ∧
    update cfg0 "alice" "bob_x" "1" "2" "A" "A I" "I" "ADM" "D1" "Bio"
        "staff" ⟨[eAlice], [], []⟩ =
      (.ok "ERROR: won't rename users across different types",
       ⟨[eAlice], [], [Op.connectOp, Op.searchOp (Filter.uidF "alice")]⟩) :=
  ⟨⟨by decide, by decide, by decide⟩,
   by
    have h := (crossTypeRename_blocked cfg0 "alice" "bob_x" "1" "2" "A"
      "A I" "I" "ADM" "D1" "Bio" "staff" [eAlice] [] (by decide) (by decide)
      (by decide) (by decide) (by decide) (by decide) (by decide)
      (by decide) (by decide) (by decide) (by decide) (by decide)
      (by decide) (by decide)).1
    simpa using h⟩


/-- C10: when an update actually renames the user (the rename succeeds),
the posixAccount check that follows still searches for the OLD username,
whose uid the rename has just changed; the search therefore matches zero
entries, the check returns false, and the standard nine-attribute
replacement list is applied — even when the entry does carry the
posixAccount object class. The theorem fixes a directory in which exactly
one entry has the old uid, that entry sits under the OU its type selects,
and no entry has the new uid; the computed trace shows the modify
operation carrying the standard attribute list, and the last conjunct
shows no modify with the posix attribute list is ever performed. -/
theorem renamedUpdate_standardMods (cfg : Config)
    (username newusername uidNumber gidNumber givenName fullName sn
      employeeType dNumber ou businessCategory : String)
    (d : List Entry) (t : List Op) (e0 : Entry)
    (h1 : username ≠ "") (h2 : newusername ≠ "") (h3 : uidNumber ≠ "")
    (h4 : gidNumber ≠ "") (h5 : givenName ≠ "") (h6 : fullName ≠ "")
    (h7 : sn ≠ "") (h8 : employeeType ≠ "") (h9 : dNumber ≠ "")
    (h10 : ou ≠ "") (h11 : businessCategory ≠ "")
    (hneq : username ≠ newusername)
    (htype : getUserType cfg username = getUserType cfg newusername)
    (hfind : d.filter (fun e => e.uid == username) = [e0])
    (hpar : e0.parent = ouSuffix cfg username)
    (hnew : d.filter (fun e => e.uid == newusername) = []) :
    (update cfg username newusername uidNumber gidNumber givenName fullName
        sn employeeType dNumber ou businessCategory ⟨d, [], t⟩).1 =
      .ok "SUCCESS: User updated in ldap" ∧
    (update cfg username newusername uidNumber gidNumber givenName fullName
        sn employeeType dNumber ou businessCategory ⟨d, [], t⟩).2.trace =
      t ++ [Op.connectOp, Op.searchOp (Filter.uidF username),
        Op.searchOp (Filter.uidF newusername),
        Op.renameOp (buildDN cfg username) ("uid=" ++ newusername),
        Op.searchOp (Filter.uidF newusername),
        Op.searchOp (Filter.uidPosixF username),
        Op.modifyOp (buildDN cfg newusername)
          (standardMods cfg newusername givenName fullName sn employeeType
            dNumber ou businessCategory),
        Op.unbindOp] ∧
    (∀ dnx, Op.modifyOp dnx (posixMods newusername uidNumber gidNumber) ∈
        (update cfg username newusername uidNumber gidNumber givenName
          fullName sn employeeType dNumber ou businessCategory
          ⟨d, [], t⟩).2.trace →
      Op.modifyOp dnx (posixMods newusername uidNumber gidNumber) ∈ t) := by
  have hmem : e0 ∈ d.filter (fun e => e.uid == username) := by
    rw [hfind]; exact List.mem_singleton_self e0
  have he0d : e0 ∈ d := (List.mem_filter.mp hmem).1
  have he0uid : e0.uid = username := beq_iff_eq.mp (List.mem_filter.mp hmem).2
  have he0dn : e0.dn = buildDN cfg username := by
    rw [Entry.dn, he0uid, hpar, buildDN_eq]
  have hany1 : d.any (fun x => x.dn == buildDN cfg username) = true :=
    List.any_eq_true.mpr ⟨e0, he0d, by rw [he0dn]; exact beq_self_eq_true _⟩
  have hf1 :
      (d.map (fun x =>
        if x.dn == buildDN cfg username then { x with uid := newusername }
        else x)).filter (fun e => e.uid == username) = [] := by
    rw [List.filter_eq_nil_iff]
    intro a ha
    rcases List.mem_map.mp ha with ⟨y, hy, rfl⟩
    by_cases hc : (y.dn == buildDN cfg username) = true
    · simp only [hc, if_true]
      simp [beq_iff_eq]
      exact fun h => hneq h.symm
    · simp only [hc, if_false]
      intro hcontra
      have hyuid : y.uid = username := by simpa [beq_iff_eq] using hcontra
      have : y ∈ d.filter (fun e => e.uid == username) :=
        List.mem_filter.mpr ⟨hy, beq_iff_eq.mpr hyuid⟩
      rw [hfind] at this
      rcases List.mem_singleton.mp this with rfl
      exact hc (by rw [he0dn]; exact beq_self_eq_true _)
  have hf2 :
      (d.map (fun x =>
        if x.dn == buildDN cfg username then { x with uid := newusername }
        else x)).filter
        (fun e => e.uid == username &&
          e.objectClass.contains "posixAccount") = [] := by
    rw [List.filter_eq_nil_iff]
    intro a ha
    have := (List.filter_eq_nil_iff.mp hf1) a ha
    simp only [Bool.and_eq_true, not_and]
    intro hu
    exact absurd hu this
  have hrn : ({ e0 with uid := newusername } : Entry).dn =
      buildDN cfg newusername := by
    rw [Entry.dn, buildDN_eq, ← ouSuffix_congr cfg username newusername htype]
    simp [hpar]
  have hany2 :
      (d.map (fun x =>
        if x.dn == buildDN cfg username then { x with uid := newusername }
        else x)).any (fun x => x.dn == buildDN cfg newusername) = true := by
    refine List.any_eq_true.mpr ⟨{ e0 with uid := newusername }, ?_,
      by rw [hrn]; exact beq_self_eq_true _⟩
    have : (fun x =>
        if x.dn == buildDN cfg username then { x with uid := newusername }
        else x) e0 = { e0 with uid := newusername } := by
      simp [he0dn]
    rw [← this]
    exact List.mem_map_of_mem _ he0d
  refine ⟨?_, ?_, ?_⟩
  case refine_3 =>
    intro dnx hmemx
    have htr : (update cfg username newusername uidNumber gidNumber
        givenName fullName sn employeeType dNumber ou businessCategory
        ⟨d, [], t⟩).2.trace =
        t ++ [Op.connectOp, Op.searchOp (Filter.uidF username),
          Op.searchOp (Filter.uidF newusername),
          Op.renameOp (buildDN cfg username) ("uid=" ++ newusername),
          Op.searchOp (Filter.uidF newusername),
          Op.searchOp (Filter.uidPosixF username),
          Op.modifyOp (buildDN cfg newusername)
            (standardMods cfg newusername givenName fullName sn employeeType
              dNumber ou businessCategory),
          Op.unbindOp] := by
      simp only [update,
        updateParams_none username newusername uidNumber gidNumber givenName
          fullName sn employeeType dNumber ou businessCategory h1 h2 h3 h4
          h5 h6 h7 h8 h9 h10 h11,
        ldapConnect_nil, findUser_nil, hfind, hnew, List.length_singleton,
        List.length_nil, Nat.reduceBEq, ne_eq, hneq, htype,
        not_false_eq_true, if_true, not_true_eq_false, if_false,
        Bool.false_eq_true, rename_s_nil, hany1, updateAfterRenameBlock,
        updateModifyPhase, containsPosixAccount_nil, hf1, hf2, modify_s_nil,
        hany2, unbind_s_nil, List.append_assoc, List.cons_append,
        List.nil_append]
    rw [htr] at hmemx
    simp only [List.mem_append] at hmemx
    rcases hmemx with hmemx | hmemx
    · exact hmemx
    · exfalso
      simp [standardMods, posixMods] at hmemx
  all_goals
    simp only [update,
      updateParams_none username newusername uidNumber gidNumber givenName
        fullName sn employeeType dNumber ou businessCategory h1 h2 h3 h4 h5
        h6 h7 h8 h9 h10 h11,
      ldapConnect_nil, findUser_nil, hfind, hnew, List.length_singleton,
      List.length_nil, Nat.reduceBEq, ne_eq, hneq, htype,
      not_false_eq_true, if_true, not_true_eq_false, if_false,
      Bool.false_eq_true, rename_s_nil, hany1, updateAfterRenameBlock,
      updateModifyPhase, containsPosixAccount_nil, hf1, hf2, modify_s_nil,
      hany2, unbind_s_nil, List.append_assoc, List.cons_append,
      List.nil_append]

/-- Witness for C10: renaming the posixAccount user alice to alicf (both
employees under cfg0); the resulting modify carries the standard
nine-attribute list even though the entry is a posixAccount. -/
theorem renamedUpdate_standardMods_witness :
    (("alice" : String) ≠ "alicf" ∧
     getUserType cfg0 "alice" = getUserType cfg0 "alicf" ∧
     [eAlice].filter (fun e => e.uid == "alice") = [eAlice] ∧
     eAlice.parent = ouSuffix cfg0 "alice" ∧
     [eAlice].filter (fun e => e.uid == "alicf") = [] ∧
     eAlice.objectClass.contains "posixAccount" = true) ∧
    (update cfg0 "alice" "alicf" "1" "2" "A" "A I" "I" "ADM" "D1" "Bio"
        "staff" ⟨[eAlice], [], []⟩).1 =
      .ok "SUCCESS: User updated in ldap" ∧
    (update cfg0 "alice" "alicf" "1" "2" "A" "A I" "I" "ADM" "D1" "Bio"
        "staff" ⟨[eAlice], [], []⟩).2.trace =
      [Op.connectOp, Op.searchOp (Filter.uidF "alice"),
        Op.searchOp (Filter.uidF "alicf"),
        Op.renameOp (buildDN cfg0 "alice") ("uid=" ++ "alicf"),
        Op.searchOp (Filter.uidF "alicf"),
        Op.searchOp (Filter.uidPosixF "alice"),
        Op.modifyOp (buildDN cfg0 "alicf")
          (standardMods cfg0 "alicf" "A" "A I" "I" "ADM" "D1" "Bio" "staff"),
        Op.unbindOp] :=
  ⟨⟨by decide, by decide, by decide, by decide, by decide, by decide⟩,
   by
    have h := renamedUpdate_standardMods cfg0 "alice" "alicf" "1" "2" "A"
      "A I" "I" "ADM" "D1" "Bio" "staff" [eAlice] [] eAlice (by decide)
      (by decide) (by decide) (by decide) (by decide) (by decide)
      (by decide) (by decide) (by decide) (by decide) (by decide)
      (by decide) (by decide) (by decide) (by decide) (by decide)
    exact ⟨h.1, by simpa using h.2.1⟩⟩


/-- C1 refutation at a failing input: the claim promises one output row
per input record in input order with total per-record failure isolation.
For a two-record batch in which the first record suffers a search
transport failure, the caught search exception leaves ldap_result
unbound, the following len(ldap_result) raises a NameError that escapes
the processor, and the outer handler of main stops the loop: the batch
emits zero rows (neither the failing record nor the second, untouched
record gets a row). The final trace shows processing stopped during the
first record. -/
theorem runBatch_abortedBySearchFailure :
    runBatch cfg0 [rowDelete "ghost", rowDelete "gone"]
        ⟨[], [true, false], []⟩ =
      ([], ⟨[], [], [Op.connectOp, Op.searchOp (Filter.uidF "ghost")]⟩) ∧
    [rowDelete "ghost", rowDelete "gone"].length = 2 :=
  ⟨rfl, rfl⟩

/-- C2 refutation at failing inputs. First two conjuncts: in an update
that renames alice to alicf, after the successful rename a transport
failure during the posixAccount check of the modify step raises a
NameError that the final bare except swallows without returning; the
success epilogue then completes (the local dn was bound on the rename
path at source line 312) and update returns the SUCCESS outcome even
though the modify step failed — the trace ends at the posix search: no
modify operation was ever performed and the connection was never
unbound. Third conjunct: a transport failure in the post-rename
confirmation search (source line 326, outside any try) raises a
NameError that escapes update entirely. Fourth conjunct: in an update
with no rename, the same posix-check transport failure leads the
epilogue at line 375 to read the never-assigned local dn, and the
resulting UnboundLocalError escapes update. All three behaviours
contradict the claim that a transport failure during the modify step
yields an ERROR-prefixed outcome and that no error escapes the
processor. -/
theorem update_successDespiteModifyError :
    (update cfg0 "alice" "alicf" "1" "2" "A" "A I" "I" "ADM" "D1" "Bio"
        "staff"
        ⟨[eAlice], [true, true, true, true, true, false], []⟩).1 =
      .ok "SUCCESS: User updated in ldap" ∧
    (update cfg0 "alice" "alicf" "1" "2" "A" "A I" "I" "ADM" "D1" "Bio"
        "staff"
        ⟨[eAlice], [true, true, true, true, true, false], []⟩).2.trace =
      [Op.connectOp, Op.searchOp (Filter.uidF "alice"),
       Op.searchOp (Filter.uidF "alicf"),
       Op.renameOp (buildDN cfg0 "alice") ("uid=" ++ "alicf"),
       Op.searchOp (Filter.uidF "alicf"),
       Op.searchOp (Filter.uidPosixF "alice")] ∧
    (update cfg0 "alice" "alicf" "1" "2" "A" "A I" "I" "ADM" "D1" "Bio"
        "staff" ⟨[eAlice], [true, true, true, true, false], []⟩).1 =
      .error PyErr.nameError ∧
    (update cfg0 "alice" "alice" "1" "2" "A" "A I" "I" "ADM" "D1" "Bio"
        "staff" ⟨[eAlice], [true, true, false], []⟩).1 =
      .error PyErr.nameError :=
  ⟨rfl, rfl, rfl, rfl⟩

/-- C3 refutation at a failing input: when the directory search raises a
transport error, findUser and containsPosixAccount do not return false —
the caught exception leaves ldap_result unbound and the subsequent
len(ldap_result) raises a NameError that propagates to the caller. -/
theorem findUser_searchFailureRaises :
    (findUser ⟨[], [false], []⟩ "alice").1 = .error PyErr.nameError ∧
    (containsPosixAccount ⟨[], [false], []⟩ "alice").1 =
      .error PyErr.nameError :=
  ⟨rfl, rfl⟩

/-- C5 counterexample: a create with an empty username yields the
outcome string "ERROR: Missing an expected input value for username in
input file"; the text "missing value for" claimed by the specification
does not occur in it (the check is case-sensitive, like the outcome
text), so the claimed message format is wrong. -/
theorem validationMessageFormatCounterexample :
    (create cfg0 "" "A" "A I" "I" "ADM" "D1" "Bio" "staff" "pw"
        ⟨[], [], []⟩).1 =
      .ok "ERROR: Missing an expected input value for username in input file" ∧
    isSubstring "missing value for".toList
      "ERROR: Missing an expected input value for username in input file".toList
      = false :=
  ⟨rfl, by decide⟩

/-- C5 (amended): a record missing a required field for its action kind
yields a validation outcome naming a missing field — the first one in
the iteration order of the parameter mapping, which the model fixes to
declaration order since Python 2 leaves the dictionary order of locals()
unspecified — in the format "ERROR: Missing an expected input value for
<field> in input file", and the world (hence the trace) is unchanged: no
directory connection is attempted. -/
theorem validationNamesMissingField (cfg : Config)
    (username newusername uidNumber gidNumber givenName fullName sn
      employeeType dNumber ou businessCategory userPassword : String)
    (w : W) :
    ((username = "" ∨ givenName = "" ∨ fullName = "" ∨ sn = "" ∨
        employeeType = "" ∨ dNumber = "" ∨ ou = "" ∨
        businessCategory = "" ∨ userPassword = "") →
      ∃ p, p ∈ createParams username givenName fullName sn employeeType
          dNumber ou businessCategory userPassword ∧ p.2 = "" ∧
        create cfg username givenName fullName sn employeeType dNumber ou
            businessCategory userPassword w =
          (.ok ("ERROR: Missing an expected input value for " ++ p.1 ++
            " in input file"), w)) ∧
    ((username = "" ∨ newusername = "" ∨ uidNumber = "" ∨ gidNumber = "" ∨
        givenName = "" ∨ fullName = "" ∨ sn = "" ∨ employeeType = "" ∨
        dNumber = "" ∨ ou = "" ∨ businessCategory = "") →
      ∃ p, p ∈ updateParams username newusername uidNumber gidNumber
          givenName fullName sn employeeType dNumber ou businessCategory ∧
        p.2 = "" ∧
        update cfg username newusername uidNumber gidNumber givenName
            fullName sn employeeType dNumber ou businessCategory w =
          (.ok ("ERROR: Missing an expected input value for " ++ p.1 ++
            " in input file"), w)) ∧
    (username = "" →
      delete cfg username w =
        (.ok "ERROR: Missing an expected input value for username in input file",
          w)) := by
  refine ⟨?_, ?_, ?_⟩
  · intro h
    have hex : ∃ x, x ∈ createParams username givenName fullName sn
        employeeType dNumber ou businessCategory userPassword ∧
        (x.2 == "") = true := by
      rcases h with h | h | h | h | h | h | h | h | h
      · exact ⟨("username", username), by simp [createParams], by simp [h]⟩
      · exact ⟨("givenName", givenName), by simp [createParams], by simp [h]⟩
      · exact ⟨("fullName", fullName), by simp [createParams], by simp [h]⟩
      · exact ⟨("sn", sn), by simp [createParams], by simp [h]⟩
      · exact ⟨("employeeType", employeeType), by simp [createParams],
          by simp [h]⟩
      · exact ⟨("dNumber", dNumber), by simp [createParams], by simp [h]⟩
      · exact ⟨("ou", ou), by simp [createParams], by simp [h]⟩
      · exact ⟨("businessCategory", businessCategory),
          by simp [createParams], by simp [h]⟩
      · exact ⟨("userPassword", userPassword), by simp [createParams],
          by simp [h]⟩
    rcases Option.isSome_iff_exists.mp (List.find?_isSome.mpr hex) with ⟨p, hp⟩
    have hps := List.find?_some hp
    refine ⟨p, List.mem_of_find?_eq_some hp, beq_iff_eq.mp hps, ?_⟩
    simp only [create, hp]
  · intro h
    have hex : ∃ x, x ∈ updateParams username newusername uidNumber
        gidNumber givenName fullName sn employeeType dNumber ou
        businessCategory ∧ (x.2 == "") = true := by
      rcases h with h | h | h | h | h | h | h | h | h | h | h
      · exact ⟨("username", username), by simp [updateParams], by simp [h]⟩
      · exact ⟨("newusername", newusername), by simp [updateParams],
          by simp [h]⟩
      · exact ⟨("uidNumber", uidNumber), by simp [updateParams],
          by simp [h]⟩
      · exact ⟨("gidNumber", gidNumber), by simp [updateParams],
          by simp [h]⟩
      · exact ⟨("givenName", givenName), by simp [updateParams],
          by simp [h]⟩
      · exact ⟨("fullName", fullName), by simp [updateParams], by simp [h]⟩
      · exact ⟨("sn", sn), by simp [updateParams], by simp [h]⟩
      · exact ⟨("employeeType", employeeType), by simp [updateParams],
          by simp [h]⟩
      · exact ⟨("dNumber", dNumber), by simp [updateParams], by simp [h]⟩
      · exact ⟨("ou", ou), by simp [updateParams], by simp [h]⟩
      · exact ⟨("businessCategory", businessCategory),
          by simp [updateParams], by simp [h]⟩
    rcases Option.isSome_iff_exists.mp (List.find?_isSome.mpr hex) with ⟨p, hp⟩
    have hps := List.find?_some hp
    refine ⟨p, List.mem_of_find?_eq_some hp, beq_iff_eq.mp hps, ?_⟩
    simp only [update, hp]
  · intro h
    simp [delete, h]

/-- Witness for C5: create with an empty username and delete with an
empty username. -/
theorem validationNamesMissingField_witness :
    (∃ p, p ∈ createParams "" "A" "A I" "I" "ADM" "D1" "Bio" "staff" "pw" ∧
      p.2 = "" ∧
      create cfg0 "" "A" "A I" "I" "ADM" "D1" "Bio" "staff" "pw"
          ⟨[], [], []⟩ =
        (.ok ("ERROR: Missing an expected input value for " ++ p.1 ++
          " in input file"), ⟨[], [], []⟩)) ∧
    delete cfg0 "" ⟨[], [], []⟩ =
      (.ok "ERROR: Missing an expected input value for username in input file",
        ⟨[], [], []⟩) :=
  ⟨(validationNamesMissingField cfg0 "" "" "" "" "A" "A I" "I" "ADM" "D1"
      "Bio" "staff" "pw" ⟨[], [], []⟩).1 (Or.inl rfl),
   (validationNamesMissingField cfg0 "" "" "" "" "A" "A I" "I" "ADM" "D1"
      "Bio" "staff" "pw" ⟨[], [], []⟩).2.2 rfl⟩

/-- C6: the classifier is total (last conjunct) and resolves in the
fixed order of the source: Student exactly when the configured student
pattern occurs as a contiguous substring anywhere in the username
(regardless of the guest pattern — the Student check precedes the Guest
check); otherwise Guest exactly when the configured guest pattern equals
the username with its last 4 characters stripped; otherwise Employee.
The source returns the strings STU, GST and EMP for the three types. -/
theorem getUserType_spec (cfg : Config) (username : String) :
    (getUserType cfg username = "STU" ↔
      ∃ s t, username.toList = s ++ cfg.STUPATTERN.toList ++ t) ∧
    ((¬ ∃ s t, username.toList = s ++ cfg.STUPATTERN.toList ++ t) →
      (getUserType cfg username = "GST" ↔
        cfg.GSTPATTERN = stripLast4 username)) ∧
    ((¬ ∃ s t, username.toList = s ++ cfg.STUPATTERN.toList ++ t) →
      cfg.GSTPATTERN ≠ stripLast4 username →
      getUserType cfg username = "EMP") ∧
    (getUserType cfg username = "STU" ∨ getUserType cfg username = "GST" ∨
      getUserType cfg username = "EMP") := by
  by_cases hsub : isSubstring cfg.STUPATTERN.toList username.toList = true
  · have hex := (isSubstring_iff cfg.STUPATTERN.toList username.toList).mp hsub
    rw [getUserType, if_pos hsub]
    refine ⟨⟨fun _ => hex, fun _ => rfl⟩, fun hn => absurd hex hn,
      fun hn _ => absurd hex hn, Or.inl rfl⟩
  · have hnex := fun hex =>
      hsub ((isSubstring_iff cfg.STUPATTERN.toList username.toList).mpr hex)
    rw [getUserType, if_neg hsub]
    by_cases hg : (cfg.GSTPATTERN == stripLast4 username) = true
    · rw [if_pos hg]
      refine ⟨⟨fun h => absurd h (by decide), fun hex => absurd hex hnex⟩,
        fun _ => ⟨fun _ => beq_iff_eq.mp hg, fun _ => rfl⟩,
        fun _ hne => absurd (beq_iff_eq.mp hg) hne, Or.inr (Or.inl rfl)⟩
    · rw [if_neg hg]
      have hne : cfg.GSTPATTERN ≠ stripLast4 username :=
        fun h => hg (beq_iff_eq.mpr h)
      refine ⟨⟨fun h => absurd h (by decide), fun hex => absurd hex hnex⟩,
        fun _ => ⟨fun h => absurd h (by decide), fun h => absurd h hne⟩,
        fun _ _ => rfl, Or.inr (Or.inr rfl)⟩

/-- Witness for C6 at the documented examples. -/
theorem getUserType_spec_witness :
    getUserType cfg0 "alice_stu" = "STU" ∧
    getUserType cfg0 "gst1234" = "GST" ∧
    getUserType cfg0 "bob" = "EMP" := by
  refine ⟨(getUserType_spec cfg0 "alice_stu").1.mpr
      ⟨"alice".toList, "stu".toList, by decide⟩,
    ((getUserType_spec cfg0 "gst1234").2.1 (fun hex =>
      absurd ((isSubstring_iff _ _).mpr hex) (by decide))).mpr (by decide),
    (getUserType_spec cfg0 "bob").2.2.1 (fun hex =>
      absurd ((isSubstring_iff _ _).mpr hex) (by decide)) (by decide)⟩

end OpenLdap
